import Mathlib

/-!
Shallow embedding of the pulumi provider-registry subsystem:

* `src/pkg/resource/deploy/providers/reference.go` — validated provider
  references (`validateURN`, `NewReference`, `Reference.String`,
  `ParseReference`).
* `src/unnamed/part_000` — the legacy, unvalidated `ParseReference` and
  `ParseProviderReference`.
* `src/pkg/resource/deploy/providers/registry.go` — `parseProperties`,
  `createShim`, the legacy provider registry.
* `src/unnamed/part_001` — the `Registry` meta-provider (`Check`, `Diff`,
  `Create`, `Update`, `Delete`, `GetProvider`, store helpers).

Strings are modelled as Lean `String` (lists of characters; the Go code
indexes bytes, but every delimiter involved is ASCII so positions agree).
Plugin handles are opaque naturals; outcomes of calls into the plugin host
and into loaded plugins (`host.Provider`, `CheckConfig`, `Configure`,
`DiffConfig`, `GetPluginInfo`, the semver parser and the UUID generator)
are passed to each operation as explicit oracle arguments, and each
operation additionally returns the list of `CloseProvider` calls it made
and the list of `Configure` calls it made, so that resource-lifetime
claims can be stated about them.  `contract.Require` / `contract.Assert` /
`mustNewReference` failures abort the Go process; operations guarded by
them return `Option` results, `none` marking the contract violation.
-/

deriving instance DecidableEq for Except

namespace PulumiSpec

/-! ### Character-level string helpers

`strings.LastIndex(s, "::")` and `strings.Split` are re-implemented over
`List Char` so that every definition is structurally recursive and
kernel-computable. -/

/-- Index (0-based) of the last occurrence of the two-character separator
`"::"` in a character list, as computed by Go `strings.LastIndex(s, "::")`;
`none` when the separator does not occur. -/
def lastIndex2Colon : List Char → Option Nat
  | [] => none
  | c :: rest =>
    match lastIndex2Colon rest with
    | some i => some (i + 1)
    | none => if c = ':' ∧ rest.head? = some ':' then some 0 else none

/-- `sepAtB cs i` holds when the separator `"::"` occurs in `cs` starting at
position `i`. -/
def sepAtB (cs : List Char) (i : Nat) : Bool :=
  cs.get? i == some ':' && cs.get? (i + 1) == some ':'

/-- Whether a string contains the reserved delimiter `"::"` at all. -/
def containsSep (s : String) : Bool :=
  (lastIndex2Colon s.data).isSome

/-- Left-greedy split of a character list on the two-character separator
`"::"` (the behavior of Go `strings.Split(s, "::")`). -/
def splitSep : List Char → List (List Char)
  | [] => [[]]
  | ':' :: ':' :: rest => [] :: splitSep rest
  | a :: rest =>
    match splitSep rest with
    | [] => [[a]]
    | h :: t => (a :: h) :: t

/-- Split a character list on a single character. -/
def splitOnChar (c : Char) : List Char → List (List Char)
  | [] => [[]]
  | a :: rest =>
    if a = c then [] :: splitOnChar c rest
    else
      match splitOnChar c rest with
      | [] => [[a]]
      | h :: t => (a :: h) :: t

/-! ### URN and type-token model

`resource.URN`, `resource.URN.Type`, `tokens.Type.Package`,
`tokens.Type.Module` and `tokens.Type.Name` are part of this repository but
their sources are not included under `src/`; only their callers are. -/

/-- The delimiter between URN name elements, `resource.URNNameDelimiter`. -/
def URNNameDelimiter : String := "::"

/-- Modelled from the spec: `resource.URN.Type` is not among the sources.
Per the spec a URN has the shape
`urn:pulumi:<stack>::<project>::<qualified type>::<name>` (for example
`urn:pulumi:stack::proj::pulumi:providers:aws::default`), so the type token
is the third `::`-separated component of the URN. -/
def urnType (urn : String) : String :=
  ⟨(splitSep urn.data).getD 2 []⟩

/-- Modelled from the spec: `tokens.Type.Package` is not among the sources.
A type token decomposes as `<package>:<module>:<name>`; the package is the
first `:`-separated component. -/
def typePackage (t : String) : String :=
  ⟨(splitOnChar ':' t.data).getD 0 []⟩

/-- Modelled from the spec: `tokens.Type.Module` is not among the sources.
The module is the second `:`-separated component of the type token. -/
def typeModule (t : String) : String :=
  ⟨(splitOnChar ':' t.data).getD 1 []⟩

/-- Modelled from the spec: `tokens.Type.Name` is not among the sources.
The name is everything after the second `:` of the type token. -/
def typeName (t : String) : String :=
  ⟨List.intercalate [':'] ((splitOnChar ':' t.data).drop 2)⟩

/-- `IsProviderType` from `reference.go`: a type token refers to a provider
when its package is `pulumi`, its module is `providers` and its name is
nonempty. -/
def IsProviderType (t : String) : Bool :=
  typePackage t == "pulumi" && typeModule t == "providers" && typeName t != ""

/-- Modelled from the spec: `getProviderPackage` (a caller-side helper of
`part_001`) is not among the sources; per the spec the underlying package of
a provider URN is the name component of its type token. -/
def getProviderPackage (t : String) : String := typeName t

/-- `validateURN` from `reference.go`: accept only URNs whose type token is
`pulumi:providers:<name>` with `<name>` nonempty, with a distinct error for
each of the three conditions. -/
def validateURN (urn : String) : Except String Unit :=
  let typ := urnType urn
  if typePackage typ ≠ "pulumi" then
    .error ("invalid package in type: expected \x27pulumi\x27, got \x27" ++ typePackage typ ++ "\x27")
  else if typeModule typ ≠ "providers" then
    .error ("invaid module in type: expected \x27providers\x27, got \x27" ++ typeModule typ ++ "\x27")
  else if typeName typ = "" then
    .error "provider URNs must specify a type name"
  else
    .ok ()

/-! ### Reference (`reference.go`) -/

/-- `Reference` from `reference.go`: a `(URN, ID)` pair identifying a
provider instance. -/
structure Reference where
  urn : String
  id : String
deriving DecidableEq, Repr

/-- `Reference.String` from `reference.go`: the canonical form
`<URN> "::" <ID>`. -/
def Reference.string (p : Reference) : String :=
  p.urn ++ URNNameDelimiter ++ p.id

/-- `NewReference` from `reference.go`: validate the URN, then build the
reference; the ID is not inspected. -/
def NewReference (urn id : String) : Except String Reference :=
  match validateURN urn with
  | .error e => .error e
  | .ok _ => .ok ⟨urn, id⟩

/-- `ParseReference` from `reference.go`: split at the last occurrence of
`"::"` (absence is a parse error naming the delimiter and the input),
validate the URN prefix, and build the reference. -/
def ParseReference (s : String) : Except String Reference :=
  match lastIndex2Colon s.data with
  | none => .error ("expected \x27::\x27 in provider reference \x27" ++ s ++ "\x27")
  | some lastSep =>
    let urn : String := ⟨s.data.take lastSep⟩
    let id : String := ⟨s.data.drop (lastSep + 2)⟩
    match validateURN urn with
    | .error e => .error e
    | .ok _ => .ok ⟨urn, id⟩

/-! ### Legacy references (`src/unnamed/part_000`) -/

namespace Legacy

/-- Legacy `Reference` from `part_000`, with public fields. -/
structure Reference where
  URN : String
  ID : String
deriving DecidableEq, Repr

/-- Legacy `ParseReference` from `part_000`: split at the last `"::"`; no
URN validation at all.  The Go function returns `(Reference{}, false)` on
failure, modelled as `none`. -/
def ParseReference (s : String) : Option Reference :=
  match lastIndex2Colon s.data with
  | none => none
  | some lastSep => some ⟨⟨s.data.take lastSep⟩, ⟨s.data.drop (lastSep + 2)⟩⟩

/-- Legacy `ProviderReference` from `part_000`. -/
structure ProviderReference where
  URN : String
  ID : String
deriving DecidableEq, Repr

/-- Legacy `ParseProviderReference` from `part_000`: identical splitting,
no validation. -/
def ParseProviderReference (s : String) : Option ProviderReference :=
  match lastIndex2Colon s.data with
  | none => none
  | some lastSep => some ⟨⟨s.data.take lastSep⟩, ⟨s.data.drop (lastSep + 2)⟩⟩

end Legacy

/-! ### Properties and provider inputs -/

/-- Modelled from the spec: `UnknownID` is defined in this repository but
its source is not included; it is the distinguished sentinel ID keying the
unconfigured slot between Check and Create/Update, distinct from the empty
string, never a valid assigned ID. -/
def UnknownID : String := "04da6b54-80e4-46f7-96ec-b56ff0331ba9"

/-- A property value, reduced to the three cases `parseProperties` and
`getProviderVersion` distinguish: a string, a computed (unknown) value, or
anything else. -/
inductive PropertyValue where
  | string (s : String)
  | computed
  | other
deriving DecidableEq, Repr

/-- A property map.  Go iterates maps in unspecified order; the model is an
association list (first binding wins on lookup). -/
abbrev PropertyMap := List (String × PropertyValue)

/-- `plugin.CheckFailure`: a structured validation failure. -/
structure CheckFailure where
  property : String
  reason : String
deriving DecidableEq, Repr

/-- `getProviderVersion` from `part_001`: read the `version` property; a
missing property is no version; a non-string is an error; otherwise the
value is given to `semver.ParseTolerant`, modelled by the oracle
`parseTolerant` returning the (zero-valued on failure) version and an
optional error, as the Go library call does. -/
def getProviderVersion (parseTolerant : String → String × Option String)
    (properties : PropertyMap) : Except String (Option String) :=
  match properties.lookup "version" with
  | none => .ok none
  | some versionProp =>
    match versionProp with
    | .string s =>
      let (sv, err) := parseTolerant s
      match err with
      | some e => .error ("could not parse provider version: " ++ e)
      | none => .ok (some sv)
    | _ => .error "\x27version\x27 must be a string"

/-- `providerInputs` from `registry.go`. -/
structure ProviderInputs where
  version : Option String
  config : List (String × String)
deriving DecidableEq, Repr

/-- Modelled from the spec: `config.MustMakeKey` is not among the sources;
it produces a package-namespaced configuration key.  (The source expression
is `config.MustMakeKey(string(urn.Type().Name()), string(k))`, with the
URN taken from the enclosing load; the package name is a parameter here.) -/
def qualifyKey (pkg k : String) : String := pkg ++ ":" ++ k

/-- The version-extraction half of `parseProperties` (`registry.go` lines
96–112): a non-string `version` is one failure; a string is handed to
`semver.ParseTolerant` (oracle `parseTolerant`), a parse error is one
failure, and — as in the source — the (zero-valued) parsed version is
recorded even then. -/
def parsePropertiesVersion (parseTolerant : String → String × Option String)
    (properties : PropertyMap) : Option String × List CheckFailure :=
  match properties.lookup "version" with
  | none => (none, [])
  | some versionProp =>
    match versionProp with
    | .string s =>
      let (sv, err) := parseTolerant s
      match err with
      | some e => (some sv, [⟨"version", "could not parse provider version: " ++ e⟩])
      | none => (some sv, [])
    | _ => (none, [⟨"version", "\x27version\x27 must be a string"⟩])

/-- The property-loop half of `parseProperties` (`registry.go` lines
115–140): skip the reserved `version` key; a computed value sets
`containsUnknowns` and, when unknowns are not allowed, adds one failure; a
string value is recorded in the config map under a qualified key; anything
else is one failure.  (Go map iteration order is unspecified, so the order
in which the failures are accumulated carries no meaning.) -/
def parseLoop (pkg : String) (allowUnknowns : Bool) :
    PropertyMap → Bool × List (String × String) × List CheckFailure
  | [] => (false, [], [])
  | (k, v) :: rest =>
    let (unk, cfg, fs) := parseLoop pkg allowUnknowns rest
    if k = "version" then (unk, cfg, fs)
    else
      match v with
      | .computed =>
        (true, cfg,
          if allowUnknowns then fs
          else ⟨k, "provider properties must not be unknown"⟩ :: fs)
      | .string s => (unk, (qualifyKey pkg k, s) :: cfg, fs)
      | .other => (unk, cfg, ⟨k, "provider property values must be strings"⟩ :: fs)

/-- `parseProperties` from `registry.go`: version extraction followed by the
single pass over the remaining properties; failures accumulate, they never
short-circuit the pass. -/
def parseProperties (parseTolerant : String → String × Option String) (pkg : String)
    (properties : PropertyMap) (allowUnknowns : Bool) :
    ProviderInputs × Bool × List CheckFailure :=
  let (version, vfails) := parsePropertiesVersion parseTolerant properties
  let (containsUnknowns, cfg, lfails) := parseLoop pkg allowUnknowns properties
  ({ version := version, config := cfg }, containsUnknowns, vfails ++ lfails)

/-! ### The registry store and meta-provider (`src/unnamed/part_001`) -/

/-- A plugin handle obtained from the host, opaque to the registry. -/
abbrev Handle := Nat

/-- The registry store: `map[Reference]plugin.Provider`, modelled as an
association list where the most recent binding shadows older ones (lookup
returns the newest binding, exactly as a map assignment overwrites). -/
abbrev Store := List (Reference × Handle)

/-- `resource.Status`. -/
inductive Status where
  | statusOK
  | statusPartialFailure
  | statusUnknown
deriving DecidableEq, Repr

namespace Registry

/-- `Registry.GetProvider` from `part_001`: non-mutating lookup. -/
def GetProvider (st : Store) (ref : Reference) : Option Handle :=
  st.lookup ref

/-- `Registry.setProvider` from `part_001`: `r.providers[ref] = provider`. -/
def setProvider (st : Store) (ref : Reference) (provider : Handle) : Store :=
  (ref, provider) :: st

/-- `Registry.deleteProvider` from `part_001`: look the reference up; when
absent report failure without mutating, otherwise remove the binding and
return the evicted provider. -/
def deleteProvider (st : Store) (ref : Reference) : Option Handle × Store :=
  match st.lookup ref with
  | none => (none, st)
  | some provider => (some provider, st.filter (fun e => !(e.1 == ref)))

/-- The result of `Registry.Check`: the returned triple
`(inputs, failures, err)` plus the final store and the `CloseProvider` and
`Configure` calls the operation made. -/
structure CheckOut where
  inputs : Option PropertyMap
  failures : List CheckFailure
  err : Option String
  store : Store
  closed : List Handle
  configured : List (Handle × PropertyMap)
deriving DecidableEq, Repr

/-- `Registry.Check` from `part_001`.  `contract.Require(IsProviderType…)`
guards the whole body.  Oracles: `parseTolerant` for the semver library,
`loadResult` for `host.Provider(pkg, version)`, `checkConfigRes` for the
plugin's `CheckConfig(olds, news)` triple, and `configureErr` for the
plugin's `Configure(inputs)`.  Control flow: a version error is a single
failure on `version`; a load error is surfaced; `CheckConfig` failures or
error close the plugin and return them; in preview the plugin is configured
now (closing it on failure) before the unknown-ID slot is inserted; outside
preview the plugin is inserted unconfigured. -/
def Check (isPreview : Bool) (st : Store) (urn : String)
    (parseTolerant : String → String × Option String)
    (_olds news : PropertyMap)
    (loadResult : Except String Handle)
    (checkConfigRes : PropertyMap × List CheckFailure × Option String)
    (configureErr : Option String) : Option CheckOut :=
  if IsProviderType (urnType urn) then
    match getProviderVersion parseTolerant news with
    | .error e =>
      some { inputs := none, failures := [⟨"version", e⟩], err := none,
             store := st, closed := [], configured := [] }
    | .ok _version =>
      match loadResult with
      | .error e =>
        some { inputs := none, failures := [], err := some e,
               store := st, closed := [], configured := [] }
      | .ok provider =>
        match checkConfigRes with
        | (inputs, failures, cerr) =>
          if failures.length ≠ 0 ∨ cerr ≠ none then
            some { inputs := none, failures := failures, err := cerr,
                   store := st, closed := [provider], configured := [] }
          else if isPreview then
            match configureErr with
            | some e =>
              some { inputs := none, failures := [], err := some e,
                     store := st, closed := [provider],
                     configured := [(provider, inputs)] }
            | none =>
              -- mustNewReference(urn, UnknownID): valid by the contract above
              some { inputs := some inputs, failures := [], err := none,
                     store := setProvider st ⟨urn, UnknownID⟩ provider,
                     closed := [], configured := [(provider, inputs)] }
          else
            some { inputs := some inputs, failures := [], err := none,
                   store := setProvider st ⟨urn, UnknownID⟩ provider,
                   closed := [], configured := [] }
  else none

/-- `plugin.DiffChanges`. -/
inductive DiffChanges where
  | diffNone
  | diffSome
  | diffUnknown
deriving DecidableEq, Repr

/-- `plugin.DiffResult`, reduced to the fields `part_001` reads. -/
structure DiffResult where
  changes : DiffChanges
  replaceKeys : List String
deriving DecidableEq, Repr

/-- The result of `Registry.Diff`: the returned `(DiffResult, err)` pair
plus the final store and the `CloseProvider` calls made. -/
structure DiffOut where
  result : DiffResult
  err : Option String
  store : Store
  closed : List Handle
deriving DecidableEq, Repr

/-- `Registry.Diff` from `part_001`.  Contracts: `id ≠ ""` and
`mustNewReference(urn, UnknownID)`; the unknown-ID slot must exist (Check
before Diff).  Oracle `diffConfigRes` is the plugin's `DiffConfig(olds,
news)` pair.  A plugin error returns `{changes: DiffUnknown}` with the
error; nonempty replace keys close the plugin (and mutate nothing else);
otherwise, in preview only, the plugin is additionally registered under the
concrete ID. -/
def Diff (isPreview : Bool) (st : Store) (urn id : String)
    (_olds _news : PropertyMap)
    (diffConfigRes : DiffResult × Option String) : Option DiffOut :=
  if id = "" then none
  else
    match NewReference urn UnknownID with
    | .error _ => none
    | .ok refU =>
      match GetProvider st refU with
      | none => none
      | some provider =>
        match diffConfigRes with
        | (_diff, some e) =>
          some { result := { changes := .diffUnknown, replaceKeys := [] },
                 err := some e, store := st, closed := [] }
        | (diff, none) =>
          if diff.replaceKeys.length ≠ 0 then
            some { result := diff, err := none, store := st, closed := [provider] }
          else if isPreview then
            -- mustNewReference(urn, id): same urn as the validated refU
            some { result := diff, err := none,
                   store := setProvider st ⟨urn, id⟩ provider, closed := [] }
          else
            some { result := diff, err := none, store := st, closed := [] }

/-- The result of `Registry.Create`: the returned
`(id, props, status, err)` tuple plus the final store and the `Configure`
calls made. -/
structure CreateOut where
  id : String
  props : Option PropertyMap
  status : Status
  err : Option String
  store : Store
  configured : List (Handle × PropertyMap)
deriving DecidableEq, Repr

/-- `Registry.Create` from `part_001`.  Contracts: not preview,
`mustNewReference(urn, UnknownID)`, the unknown-ID slot exists (Check
before Create), and the freshly generated UUID (oracle `freshId`, embedding
`uuid.NewV4().String()`) differs from `UnknownID`.  The staged plugin is
configured with `news` (a failure is returned as the error), then
registered under the fresh ID; the unknown-ID entry is left in place. -/
def Create (isPreview : Bool) (st : Store) (urn : String) (news : PropertyMap)
    (configureErr : Option String) (freshId : String) : Option CreateOut :=
  if isPreview then none
  else
    match NewReference urn UnknownID with
    | .error _ => none
    | .ok refU =>
      match GetProvider st refU with
      | none => none
      | some provider =>
        match configureErr with
        | some e =>
          some { id := "", props := none, status := .statusOK, err := some e,
                 store := st, configured := [(provider, news)] }
        | none =>
          if freshId = UnknownID then none
          else
            -- mustNewReference(urn, freshId): same urn as the validated refU
            some { id := freshId, props := some [], status := .statusOK,
                   err := none, store := setProvider st ⟨urn, freshId⟩ provider,
                   configured := [(provider, news)] }

/-- The result of `Registry.Update`: the returned `(props, status, err)`
triple plus the final store and the `Configure` calls made. -/
structure UpdateOut where
  props : Option PropertyMap
  status : Status
  err : Option String
  store : Store
  configured : List (Handle × PropertyMap)
deriving DecidableEq, Repr

/-- `Registry.Update` from `part_001`.  Contracts: `mustNewReference(urn,
id)` and the concrete slot exists.  The stored plugin is configured with
`news`; a failure returns `(nil, StatusUnknown, err)`. -/
def Update (st : Store) (urn id : String) (_olds news : PropertyMap)
    (configureErr : Option String) : Option UpdateOut :=
  match NewReference urn id with
  | .error _ => none
  | .ok ref =>
    match GetProvider st ref with
    | none => none
    | some provider =>
      match configureErr with
      | some e =>
        some { props := none, status := .statusUnknown, err := some e,
               store := st, configured := [(provider, news)] }
      | none =>
        some { props := some [], status := .statusOK, err := none,
               store := st, configured := [(provider, news)] }

/-- The result of `Registry.Delete`: the returned `(status, err)` pair plus
the final store and the `CloseProvider` calls made. -/
structure DeleteOut where
  status : Status
  err : Option String
  store : Store
  closed : List Handle
deriving DecidableEq, Repr

/-- `Registry.Delete` from `part_001`.  Contract: `mustNewReference(urn,
id)`.  Remove the reference from the store; when absent, report an
unknown-provider error without touching the host; otherwise close the
evicted plugin, ignoring the close error (`_closeErr`, the host
`CloseProvider` outcome, is discarded by `contract.IgnoreError`). -/
def Delete (st : Store) (urn id : String) (_props : PropertyMap)
    (_closeErr : Option String) : Option DeleteOut :=
  match NewReference urn id with
  | .error _ => none
  | .ok ref =>
    match deleteProvider st ref with
    | (none, st2) =>
      some { status := .statusUnknown,
             err := some ("unknown provider \x27" ++ ref.string ++ "\x27"),
             store := st2, closed := [] }
    | (some provider, st2) =>
      some { status := .statusOK, err := none, store := st2,
             closed := [provider] }

end Registry

/-! ### Shim construction (`registry.go`) -/

/-- `workspace.PluginInfo`, opaque plain data. -/
abbrev PluginInfo := String

/-- The result of `createShim`: the shim (its package and captured plugin
info) or an error, plus the `CloseProvider` calls made. -/
structure ShimOut where
  shim : Option (String × PluginInfo)
  err : Option String
  closed : List Handle
deriving DecidableEq, Repr

/-- `createShim` from `registry.go`: load the real plugin (oracle
`loadResult`), capture its `GetPluginInfo` (oracle `infoResult`), and build
the shim; the deferred `host.CloseProvider` closes the real plugin on every
path after a successful load. -/
def createShim (pkg : String) (loadResult : Except String Handle)
    (infoResult : Except String PluginInfo) : ShimOut :=
  match loadResult with
  | .error e => { shim := none, err := some e, closed := [] }
  | .ok provider =>
    match infoResult with
    | .error e => { shim := none, err := some e, closed := [provider] }
    | .ok info => { shim := some (pkg, info), err := none, closed := [provider] }

/-! ### Shared lemmas -/

/-- Success of `validateURN` is exactly the three provider-URN conditions. -/
theorem validateURN_ok_iff (urn : String) :
    validateURN urn = .ok () ↔
      (typePackage (urnType urn) = "pulumi" ∧ typeModule (urnType urn) = "providers" ∧
        typeName (urnType urn) ≠ "") := by
  simp only [validateURN]
  split_ifs with h1 h2 h3 <;> simp_all

/-- `NewReference` succeeds, with the evident reference, exactly when the
URN validates. -/
theorem newReference_ok (urn id : String) (h : validateURN urn = .ok ()) :
    NewReference urn id = .ok ⟨urn, id⟩ := by
  unfold NewReference
  rw [h]

/-- Characterization of `lastIndex2Colon`: when it returns `some i` there is
a separator at `i` and none later; when it returns `none` there is no
separator at all. -/
theorem lastIndex2Colon_spec (cs : List Char) :
    (∀ i, lastIndex2Colon cs = some i →
      sepAtB cs i = true ∧ ∀ j, i < j → sepAtB cs j = false) ∧
    (lastIndex2Colon cs = none → ∀ j, sepAtB cs j = false) := by
  induction cs with
  | nil =>
    refine ⟨fun i hi => by simp [lastIndex2Colon] at hi, fun _ j => ?_⟩
    simp [sepAtB]
  | cons c rest ih =>
    constructor
    · intro i hi
      unfold lastIndex2Colon at hi
      cases hrest : lastIndex2Colon rest with
      | some k =>
        rw [hrest] at hi
        simp only [Option.some.injEq] at hi
        subst hi
        have hk := ih.1 k hrest
        constructor
        · simpa [sepAtB] using hk.1
        · intro j hj
          cases j with
          | zero => omega
          | succ j2 =>
            have : k < j2 := by omega
            simpa [sepAtB] using hk.2 j2 this
      | none =>
        rw [hrest] at hi
        by_cases hc : c = ':' ∧ rest.head? = some ':'
        · rw [if_pos hc] at hi
          simp only [Option.some.injEq] at hi
          subst hi
          constructor
          · simp [sepAtB, hc.1, hc.2]
            cases rest with
            | nil => simp at hc
            | cons r rs =>
              simp at hc
              simp [hc.2]
          · intro j hj
            cases j with
            | zero => omega
            | succ j2 =>
              simpa [sepAtB] using ih.2 hrest j2
        · rw [if_neg hc] at hi
          exact absurd hi (by simp)
    · intro hnone j
      unfold lastIndex2Colon at hnone
      cases hrest : lastIndex2Colon rest with
      | some k => rw [hrest] at hnone; exact absurd hnone (by simp)
      | none =>
        rw [hrest] at hnone
        by_cases hc : c = ':' ∧ rest.head? = some ':'
        · rw [if_pos hc] at hnone; exact absurd hnone (by simp)
        · cases j with
          | zero =>
            simp only [sepAtB]
            cases rest with
            | nil => simp
            | cons r rs =>
              simp only [List.get?] at *
              simp only [List.head?] at hc
              by_cases hcc : c = ':'
              · have : ¬ r = ':' := fun hr => hc ⟨hcc, by simp [hr]⟩
                simp [this]
              · simp [hcc]
          | succ j2 => simpa [sepAtB] using ih.2 hrest j2

/-- `lastIndex2Colon` on `u ++ "::" ++ v` finds the injected separator
when `v` neither contains the separator nor begins with a colon. -/
theorem lastIndex2Colon_append (u v : List Char)
    (hv : lastIndex2Colon v = none) (hh : v.head? ≠ some ':') :
    lastIndex2Colon (u ++ ':' :: ':' :: v) = some u.length := by
  induction u with
  | nil =>
    rw [List.nil_append]
    simp only [lastIndex2Colon, hv]
    simp [hh]
  | cons a u2 ih =>
    rw [List.cons_append]
    simp only [lastIndex2Colon, ih]
    simp

/-- Looking up the key just inserted. -/
theorem lookup_cons_self {α β : Type} [DecidableEq α] (a : α) (b : β)
    (l : List (α × β)) : List.lookup a ((a, b) :: l) = some b := by
  simp [List.lookup]

/-- Removing every binding of a key makes its lookup fail. -/
theorem lookup_filter_self {α β : Type} [DecidableEq α] (a : α)
    (l : List (α × β)) :
    List.lookup a (l.filter (fun e => !(e.1 == a))) = none := by
  induction l with
  | nil => rfl
  | cons e rest ih =>
    obtain ⟨k, b⟩ := e
    by_cases h : k = a
    · subst h
      simp [List.filter_cons, ih]
    · have hb : (((k, b).1 == a) = false) := by simp [h]
      have hab : ((a == k) = false) := by simp [Ne.symm h]
      simp [List.filter_cons, hb, List.lookup, hab, ih]

/-- A successful `NewReference` validates the URN and returns the evident
pair. -/
theorem newReference_ok_inv (urn id : String) (ref : Reference)
    (h : NewReference urn id = .ok ref) :
    validateURN urn = .ok () ∧ ref = ⟨urn, id⟩ := by
  unfold NewReference at h
  cases hv : validateURN urn with
  | error e => rw [hv] at h; exact absurd h (by simp)
  | ok u =>
    cases u
    rw [hv] at h
    simp only [Except.ok.injEq] at h
    exact ⟨rfl, h.symm⟩

/-- Reduction of `ParseReference` once the split point is known. -/
theorem parseReference_eq_some (s : String) (i : Nat)
    (hi : lastIndex2Colon s.data = some i) :
    ParseReference s =
      match validateURN ⟨s.data.take i⟩ with
      | .error e => .error e
      | .ok _ => .ok ⟨⟨s.data.take i⟩, ⟨s.data.drop (i + 2)⟩⟩ := by
  unfold ParseReference
  rw [hi]

/-! ### Claim C4 -/

/-- Claim C4: `NewReference(urn, id)` succeeds if and only if the URN's type
token has package `pulumi`, module `providers` and a nonempty name; for any
URN violating one of those three conditions it returns an error, for any ID
value. -/
theorem c4_new_reference_iff (urn id : String) :
    ((∃ ref, NewReference urn id = .ok ref) ↔
      (typePackage (urnType urn) = "pulumi" ∧ typeModule (urnType urn) = "providers" ∧
        typeName (urnType urn) ≠ "")) ∧
    (¬(typePackage (urnType urn) = "pulumi" ∧ typeModule (urnType urn) = "providers" ∧
        typeName (urnType urn) ≠ "") →
      ∃ e, NewReference urn id = .error e) := by
  constructor
  · constructor
    · rintro ⟨ref, href⟩
      exact (validateURN_ok_iff urn).1 (newReference_ok_inv urn id ref href).1
    · intro hcond
      exact ⟨⟨urn, id⟩, newReference_ok urn id ((validateURN_ok_iff urn).2 hcond)⟩
  · intro hcond
    cases hv : validateURN urn with
    | error e => exact ⟨e, by unfold NewReference; rw [hv]⟩
    | ok u =>
      cases u
      exact absurd ((validateURN_ok_iff urn).1 hv) hcond

/-- Witness for C4 at a concrete invalid URN. -/
theorem c4_witness :
    ∃ e, NewReference "not-a-provider-urn" "x" = .error e :=
  (c4_new_reference_iff "not-a-provider-urn" "x").2 (by decide)

/-! ### Claim C5 -/

/-- Claim C5: `ParseReference` fails with a parse error on every input that
does not contain `::`; on inputs that do, the split point is the last
occurrence of `::` (there is a separator there and none later), the URN is
everything before it and the ID everything after it. -/
theorem c5_parse_reference_split :
    (∀ s : String, containsSep s = false →
      ParseReference s = .error ("expected \x27::\x27 in provider reference \x27" ++ s ++ "\x27")) ∧
    (∀ (cs : List Char) (i : Nat), lastIndex2Colon cs = some i →
      sepAtB cs i = true ∧ ∀ j, i < j → sepAtB cs j = false) ∧
    (∀ (s : String) (i : Nat) (ref : Reference), lastIndex2Colon s.data = some i →
      ParseReference s = .ok ref →
      ref.urn = ⟨s.data.take i⟩ ∧ ref.id = ⟨s.data.drop (i + 2)⟩) := by
  refine ⟨fun s hs => ?_, fun cs i hi => (lastIndex2Colon_spec cs).1 i hi,
    fun s i ref hi href => ?_⟩
  · unfold ParseReference
    cases h2 : lastIndex2Colon s.data with
    | none => rfl
    | some k => rw [containsSep, h2] at hs; exact absurd hs (by simp)
  · rw [parseReference_eq_some s i hi] at href
    cases hv : validateURN ⟨s.data.take i⟩ with
    | error e => rw [hv] at href; exact absurd href (by simp)
    | ok u =>
      cases u
      rw [hv] at href
      simp only [Except.ok.injEq] at href
      rw [← href]
      exact ⟨rfl, rfl⟩

/-- Witness for C5: the missing-delimiter error, the last-occurrence
characterization and the split, each at a concrete input. -/
theorem c5_witness :
    (ParseReference "not-a-reference" =
      .error "expected \x27::\x27 in provider reference \x27not-a-reference\x27") ∧
    (sepAtB "a::b::c".data 4 = true ∧ ∀ j, 4 < j → sepAtB "a::b::c".data j = false) ∧
    ((⟨"urn:pulumi:st::proj::pulumi:providers:aws::nm", "abc"⟩ : Reference).urn =
        ⟨("urn:pulumi:st::proj::pulumi:providers:aws::nm::abc").data.take 45⟩ ∧
      (⟨"urn:pulumi:st::proj::pulumi:providers:aws::nm", "abc"⟩ : Reference).id =
        ⟨("urn:pulumi:st::proj::pulumi:providers:aws::nm::abc").data.drop 47⟩) :=
  ⟨c5_parse_reference_split.1 "not-a-reference" (by decide),
    c5_parse_reference_split.2.1 "a::b::c".data 4 (by decide),
    c5_parse_reference_split.2.2 "urn:pulumi:st::proj::pulumi:providers:aws::nm::abc" 45
      ⟨"urn:pulumi:st::proj::pulumi:providers:aws::nm", "abc"⟩ (by decide) (by decide)⟩

/-! ### Claim C3 -/

/-- Counterexample to C3 as stated: `NewReference` succeeds for an ID that
itself contains `::`, and parsing the formatted reference does not return
the same reference (the last-occurrence split lands inside the ID). -/
theorem c3_counterexample :
    NewReference "urn:pulumi:st::proj::pulumi:providers:aws::nm" "a::b" =
      .ok ⟨"urn:pulumi:st::proj::pulumi:providers:aws::nm", "a::b"⟩ ∧
    ParseReference
        (Reference.string ⟨"urn:pulumi:st::proj::pulumi:providers:aws::nm", "a::b"⟩) ≠
      .ok ⟨"urn:pulumi:st::proj::pulumi:providers:aws::nm", "a::b"⟩ := by
  constructor
  · decide
  · decide

/-- Claim C3 (amended): for every URN and ID such that `NewReference(urn,
id)` succeeds, provided the ID neither contains the delimiter `::` nor
begins with `:`, parsing the formatted string round-trips — including when
the URN itself contains `::` internally. -/
theorem c3_roundtrip (urn id : String) (ref : Reference)
    (href : NewReference urn id = .ok ref)
    (hid1 : containsSep id = false)
    (hid2 : id.data.head? ≠ some ':') :
    ParseReference ref.string = .ok ref := by
  obtain ⟨hv, hr⟩ := newReference_ok_inv urn id ref href
  subst hr
  have hnone : lastIndex2Colon id.data = none := by
    rw [containsSep] at hid1
    cases h2 : lastIndex2Colon id.data with
    | none => rfl
    | some k => rw [h2] at hid1; exact absurd hid1 (by simp)
  have hdata : (Reference.string ⟨urn, id⟩).data = urn.data ++ ':' :: ':' :: id.data := by
    show (urn ++ URNNameDelimiter ++ id).data = _
    rw [String.data_append, String.data_append,
      show URNNameDelimiter.data = [':', ':'] from rfl, List.append_assoc]
    rfl
  have hlast : lastIndex2Colon (Reference.string ⟨urn, id⟩).data = some urn.data.length := by
    rw [hdata]
    exact lastIndex2Colon_append urn.data id.data hnone hid2
  have htake : (Reference.string ⟨urn, id⟩).data.take urn.data.length = urn.data := by
    rw [hdata]
    exact List.take_left ..
  have hdrop : (Reference.string ⟨urn, id⟩).data.drop (urn.data.length + 2) = id.data := by
    rw [hdata]
    exact List.drop_append 2
  rw [parseReference_eq_some (Reference.string ⟨urn, id⟩) urn.data.length hlast,
    htake, hdrop]
  rw [show (⟨urn.data⟩ : String) = urn from rfl, show (⟨id.data⟩ : String) = id from rfl, hv]

/-- Witness for C3 (amended) at a concrete URN containing `::` internally. -/
theorem c3_witness :
    ParseReference
        (Reference.string ⟨"urn:pulumi:st::proj::pulumi:providers:aws::nm", "abc-123"⟩) =
      .ok ⟨"urn:pulumi:st::proj::pulumi:providers:aws::nm", "abc-123"⟩ :=
  c3_roundtrip "urn:pulumi:st::proj::pulumi:providers:aws::nm" "abc-123"
    ⟨"urn:pulumi:st::proj::pulumi:providers:aws::nm", "abc-123"⟩
    (by decide) (by decide) (by decide)

/-! ### Claim C10 -/

/-- Claim C10: the legacy `ParseReference` and `ParseProviderReference`
succeed on every input containing `::`, splitting at the last occurrence
with no provider-URN validation; in particular they accept a string whose
URN portion the validated `ParseReference` rejects. -/
theorem c10_legacy_parse :
    (∀ (s : String) (i : Nat), lastIndex2Colon s.data = some i →
      Legacy.ParseReference s = some ⟨⟨s.data.take i⟩, ⟨s.data.drop (i + 2)⟩⟩ ∧
      Legacy.ParseProviderReference s = some ⟨⟨s.data.take i⟩, ⟨s.data.drop (i + 2)⟩⟩) ∧
    (Legacy.ParseReference "urn:pulumi:st::proj::not:a:provider::nm::id1" =
        some ⟨"urn:pulumi:st::proj::not:a:provider::nm", "id1"⟩ ∧
      ∃ e, ParseReference "urn:pulumi:st::proj::not:a:provider::nm::id1" = .error e) := by
  constructor
  · intro s i hi
    constructor
    · unfold Legacy.ParseReference
      rw [hi]
    · unfold Legacy.ParseProviderReference
      rw [hi]
  · constructor
    · decide
    · exact ⟨"invalid package in type: expected \x27pulumi\x27, got \x27not\x27", by decide⟩

/-- Witness for C10 at a concrete legacy reference string. -/
theorem c10_witness :
    Legacy.ParseReference "foo::bar" = some ⟨⟨"foo::bar".data.take 3⟩, ⟨"foo::bar".data.drop 5⟩⟩ ∧
    Legacy.ParseProviderReference "foo::bar" =
      some ⟨⟨"foo::bar".data.take 3⟩, ⟨"foo::bar".data.drop 5⟩⟩ :=
  c10_legacy_parse.1 "foo::bar" 3 (by decide)

/-! ### Claim C9 -/

/-- Looking a key up fails when the key is not among the keys. -/
theorem lookup_none_of_not_mem_keys {α β : Type} [DecidableEq α] (a : α)
    (l : List (α × β)) (h : a ∉ l.map Prod.fst) : List.lookup a l = none := by
  induction l with
  | nil => rfl
  | cons e rest ih =>
    obtain ⟨k, b⟩ := e
    simp only [List.map_cons, List.mem_cons] at h
    push_neg at h
    have hab : (a == k) = false := by simp [h.1]
    simp [List.lookup, hab, ih h.2]

/-- Every failure produced by the version half of `parseProperties` is on
the `version` property. -/
theorem parsePropertiesVersion_property (pT : String → String × Option String)
    (pm : PropertyMap) (f : CheckFailure)
    (hf : f ∈ (parsePropertiesVersion pT pm).2) : f.property = "version" := by
  unfold parsePropertiesVersion at hf
  split at hf
  · simp at hf
  · split at hf
    · split at hf
      · split at hf
        · simp at hf
          rw [hf]
        · simp at hf
    · simp at hf
      rw [hf]

/-- Looking up behind a non-matching head binding. -/
theorem lookup_cons_ne {α β : Type} [DecidableEq α] (a k : α) (b : β)
    (l : List (α × β)) (h : (a == k) = false) :
    List.lookup a ((k, b) :: l) = List.lookup a l := by
  simp [List.lookup, h]

/-- The unknown-flag computed by the property loop is `true` when some
non-`version` key holds a computed value. -/
theorem parseLoop_unknown_true (pkg : String) (pm : PropertyMap) (k : String)
    (hk : k ≠ "version") (hc : pm.lookup k = some .computed) :
    (parseLoop pkg false pm).1 = true := by
  induction pm with
  | nil => simp [List.lookup] at hc
  | cons hd rest ih =>
    obtain ⟨k1, v1⟩ := hd
    rcases hres : parseLoop pkg false rest with ⟨unk, cfg, fs⟩
    by_cases h1 : k1 = "version"
    · subst h1
      have hkk : (k == "version") = false := by simp [hk]
      rw [lookup_cons_ne _ _ _ _ hkk] at hc
      have hml := ih hc
      rw [hres] at hml
      simp only at hml
      simp [parseLoop, hres, hml]
    · by_cases hkk : k = k1
      · subst hkk
        rw [lookup_cons_self] at hc
        simp only [Option.some.injEq] at hc
        subst hc
        simp [parseLoop, hres, h1]
      · have hkk2 : (k == k1) = false := by simp [hkk]
        rw [lookup_cons_ne _ _ _ _ hkk2] at hc
        have hml := ih hc
        rw [hres] at hml
        simp only at hml
        cases v1 <;> simp [parseLoop, hres, h1, hml]

/-- Count of unknown-property failures produced by the loop: exactly one
for a computed non-`version` key, none otherwise (keys unique). -/
theorem parseLoop_count (pkg : String) (pm : PropertyMap)
    (hnd : (pm.map Prod.fst).Nodup) (k : String) (hk : k ≠ "version") :
    ((parseLoop pkg false pm).2.2).count
        ⟨k, "provider properties must not be unknown"⟩ =
      if pm.lookup k = some .computed then 1 else 0 := by
  induction pm with
  | nil => simp [parseLoop, List.lookup]
  | cons hd rest ih =>
    obtain ⟨k1, v1⟩ := hd
    simp only [List.map_cons, List.nodup_cons] at hnd
    obtain ⟨hk1, hndr⟩ := hnd
    have ihr := ih hndr
    rcases hres : parseLoop pkg false rest with ⟨unk, cfg, fs⟩
    rw [hres] at ihr
    simp only at ihr
    by_cases h1 : k1 = "version"
    · subst h1
      have hkk : (k == "version") = false := by simp [hk]
      rw [lookup_cons_ne _ _ _ _ hkk]
      simpa [parseLoop, hres] using ihr
    · by_cases hkk : k = k1
      · subst hkk
        have hlr : rest.lookup k = none := lookup_none_of_not_mem_keys k rest hk1
        rw [hlr, if_neg (by simp)] at ihr
        rw [lookup_cons_self]
        cases v1 with
        | computed =>
          simp [parseLoop, hres, h1, List.count_cons, ihr]
        | string s =>
          rw [if_neg (by simp)]
          simpa [parseLoop, hres, h1] using ihr
        | other =>
          rw [if_neg (by simp)]
          simp [parseLoop, hres, h1, List.count_cons, ihr, hk]
      · have hkk2 : (k == k1) = false := by simp [hkk]
        rw [lookup_cons_ne _ _ _ _ hkk2]
        cases v1 with
        | computed =>
          simp [parseLoop, hres, h1, List.count_cons, ihr, Ne.symm hkk]
        | string s =>
          simpa [parseLoop, hres, h1] using ihr
        | other =>
          simp [parseLoop, hres, h1, List.count_cons, ihr, Ne.symm hkk]

/-- Counterexample to C9 as stated: a property map whose only computed
value sits under the reserved `version` key; `parseProperties` with
`allowUnknowns=false` reports `hasUnknowns=false` and a
version-must-be-a-string failure rather than an unknown-property failure. -/
theorem c9_counterexample :
    (([("version", PropertyValue.computed)] : PropertyMap).lookup "version" =
        some PropertyValue.computed) ∧
    (parseProperties (fun _ => ("0.0.0", none)) "aws"
        [("version", PropertyValue.computed)] false).2.1 = false ∧
    (parseProperties (fun _ => ("0.0.0", none)) "aws"
        [("version", PropertyValue.computed)] false).2.2 =
      [⟨"version", "\x27version\x27 must be a string"⟩] := by
  refine ⟨rfl, rfl, rfl⟩

/-- Claim C9 (amended): for every property map (with unique keys) and every
computed property under a key other than the reserved `version` key,
`parseProperties` with `allowUnknowns=false` returns `hasUnknowns=true`
together with exactly one failure
`{property: k, reason: "provider properties must not be unknown"}` for that
key, accumulated in a single pass without short-circuiting; keys that do
not hold a computed value receive no such failure. -/
theorem c9_parse_unknowns (pT : String → String × Option String) (pkg : String)
    (pm : PropertyMap) (hnd : (pm.map Prod.fst).Nodup) (k : String)
    (hk : k ≠ "version") :
    (pm.lookup k = some .computed →
      (parseProperties pT pkg pm false).2.1 = true ∧
      ((parseProperties pT pkg pm false).2.2).count
          ⟨k, "provider properties must not be unknown"⟩ = 1) ∧
    (pm.lookup k ≠ some .computed →
      ((parseProperties pT pkg pm false).2.2).count
          ⟨k, "provider properties must not be unknown"⟩ = 0) := by
  have hvcount : ((parsePropertiesVersion pT pm).2).count
      (⟨k, "provider properties must not be unknown"⟩ : CheckFailure) = 0 := by
    rw [List.count_eq_zero]
    intro hmem
    exact hk (parsePropertiesVersion_property pT pm _ hmem)
  have hsplit : (parseProperties pT pkg pm false).2.2 =
      (parsePropertiesVersion pT pm).2 ++ (parseLoop pkg false pm).2.2 := by
    unfold parseProperties
    rcases parsePropertiesVersion pT pm with ⟨v, vf⟩
    rcases parseLoop pkg false pm with ⟨u, cf, lf⟩
    rfl
  have hunk : (parseProperties pT pkg pm false).2.1 = (parseLoop pkg false pm).1 := by
    unfold parseProperties
    rcases parsePropertiesVersion pT pm with ⟨v, vf⟩
    rcases parseLoop pkg false pm with ⟨u, cf, lf⟩
    rfl
  constructor
  · intro hc
    refine ⟨by rw [hunk]; exact parseLoop_unknown_true pkg pm k hk hc, ?_⟩
    rw [hsplit, List.count_append, hvcount, parseLoop_count pkg pm hnd k hk, if_pos hc]
  · intro hc
    rw [hsplit, List.count_append, hvcount, parseLoop_count pkg pm hnd k hk, if_neg hc]

/-- Witness for C9 (amended) at a concrete property map. -/
theorem c9_witness :
    ((parseProperties (fun _ => ("0.0.0", none)) "aws"
        [("region", PropertyValue.computed), ("zone", PropertyValue.string "a")]
        false).2.1 = true ∧
      ((parseProperties (fun _ => ("0.0.0", none)) "aws"
          [("region", PropertyValue.computed), ("zone", PropertyValue.string "a")]
          false).2.2).count
        ⟨"region", "provider properties must not be unknown"⟩ = 1) ∧
    ((parseProperties (fun _ => ("0.0.0", none)) "aws"
        [("region", PropertyValue.computed), ("zone", PropertyValue.string "a")]
        false).2.2).count
      ⟨"zone", "provider properties must not be unknown"⟩ = 0 :=
  ⟨(c9_parse_unknowns (fun _ => ("0.0.0", none)) "aws"
      [("region", PropertyValue.computed), ("zone", PropertyValue.string "a")]
      (by decide) "region" (by decide)).1 (by decide),
    (c9_parse_unknowns (fun _ => ("0.0.0", none)) "aws"
      [("region", PropertyValue.computed), ("zone", PropertyValue.string "a")]
      (by decide) "zone" (by decide)).2 (by decide)⟩

/-! ### Registry store lemmas -/

/-- A freshly set binding is found by `GetProvider`. -/
theorem getProvider_set_self (st : Store) (ref : Reference) (p : Handle) :
    Registry.GetProvider (Registry.setProvider st ref p) ref = some p := by
  unfold Registry.GetProvider Registry.setProvider
  exact lookup_cons_self ref p st

/-- Evaluation of `Create` on a staged unknown-ID slot when `Configure`
succeeds. -/
theorem create_staged_eq (st : Store) (urn : String) (news : PropertyMap)
    (p : Handle) (freshId : String) (hu : validateURN urn = .ok ())
    (hstaged : Registry.GetProvider st ⟨urn, UnknownID⟩ = some p)
    (hfresh : freshId ≠ UnknownID) :
    Registry.Create false st urn news none freshId =
      some { id := freshId, props := some [], status := .statusOK, err := none,
             store := Registry.setProvider st ⟨urn, freshId⟩ p,
             configured := [(p, news)] } := by
  simp only [Registry.Create, Bool.false_eq_true, if_false,
    newReference_ok urn UnknownID hu, hstaged, if_neg hfresh]

/-- Evaluation of `Diff` on a staged slot when the plugin diff reports
replacement: the plugin is closed and the store is untouched. -/
theorem diff_replace_eq (isPreview : Bool) (st : Store) (urn id : String)
    (olds news : PropertyMap) (p : Handle) (diff : Registry.DiffResult)
    (hu : validateURN urn = .ok ()) (hid : id ≠ "")
    (hstaged : Registry.GetProvider st ⟨urn, UnknownID⟩ = some p)
    (hrep : diff.replaceKeys ≠ []) :
    Registry.Diff isPreview st urn id olds news (diff, none) =
      some { result := diff, err := none, store := st, closed := [p] } := by
  have hlen : diff.replaceKeys.length ≠ 0 := by
    simpa [List.length_eq_zero] using hrep
  simp only [Registry.Diff, if_neg hid, newReference_ok urn UnknownID hu, hstaged,
    if_pos hlen]

/-- Evaluation of `Delete` on a stored reference: the binding is removed
and the evicted plugin closed. -/
theorem delete_stored_eq (st : Store) (urn id : String) (props : PropertyMap)
    (closeErr : Option String) (p : Handle) (hu : validateURN urn = .ok ())
    (hsome : Registry.GetProvider st ⟨urn, id⟩ = some p) :
    Registry.Delete st urn id props closeErr =
      some { status := .statusOK, err := none,
             store := st.filter (fun e => !(e.1 == (⟨urn, id⟩ : Reference))),
             closed := [p] } := by
  unfold Registry.GetProvider at hsome
  simp only [Registry.Delete, newReference_ok urn id hu, Registry.deleteProvider, hsome]

/-! ### Claim C8 -/

/-- Claim C8: `Delete(urn, id, props)` returns an unknown-provider error,
makes no host calls and leaves the store unchanged exactly when
`Reference(urn, id)` is absent; otherwise it removes the reference (a
subsequent `GetProvider` returns not-found), closes the evicted plugin via
the host with any close error ignored, and returns `StatusOK`. -/
theorem c8_delete (st : Store) (urn id : String) (props : PropertyMap)
    (closeErr : Option String) (hu : validateURN urn = .ok ()) :
    (Registry.GetProvider st ⟨urn, id⟩ = none →
      Registry.Delete st urn id props closeErr =
        some { status := .statusUnknown,
               err := some ("unknown provider \x27" ++
                 Reference.string ⟨urn, id⟩ ++ "\x27"),
               store := st, closed := [] }) ∧
    (∀ p, Registry.GetProvider st ⟨urn, id⟩ = some p →
      ∃ st2, Registry.Delete st urn id props closeErr =
          some { status := .statusOK, err := none, store := st2, closed := [p] } ∧
        Registry.GetProvider st2 ⟨urn, id⟩ = none) := by
  constructor
  · intro habs
    unfold Registry.GetProvider at habs
    simp only [Registry.Delete, newReference_ok urn id hu, Registry.deleteProvider, habs]
  · intro p hsome
    refine ⟨st.filter (fun e => !(e.1 == (⟨urn, id⟩ : Reference))), ?_, ?_⟩
    · exact delete_stored_eq st urn id props closeErr p hu hsome
    · exact lookup_filter_self _ _

/-- Witness for C8: both branches at concrete stores. -/
theorem c8_witness :
    (Registry.Delete ([] : Store) "urn:pulumi:st::proj::pulumi:providers:aws::p0" "id0" [] none =
      some { status := .statusUnknown,
             err := some ("unknown provider \x27" ++
               Reference.string ⟨"urn:pulumi:st::proj::pulumi:providers:aws::p0", "id0"⟩ ++ "\x27"),
             store := [], closed := [] }) ∧
    (∃ st2,
      Registry.Delete
          [((⟨"urn:pulumi:st::proj::pulumi:providers:aws::p0", "id0"⟩ : Reference), 7)]
          "urn:pulumi:st::proj::pulumi:providers:aws::p0" "id0" [] none =
        some { status := .statusOK, err := none, store := st2, closed := [7] } ∧
      Registry.GetProvider st2 ⟨"urn:pulumi:st::proj::pulumi:providers:aws::p0", "id0"⟩ = none) :=
  ⟨(c8_delete ([] : Store) "urn:pulumi:st::proj::pulumi:providers:aws::p0" "id0" [] none
      (by decide)).1 (by decide),
    (c8_delete [((⟨"urn:pulumi:st::proj::pulumi:providers:aws::p0", "id0"⟩ : Reference), 7)]
      "urn:pulumi:st::proj::pulumi:providers:aws::p0" "id0" [] none
      (by decide)).2 7 (by decide)⟩

/-! ### Claim C7 -/

/-- Claim C7: with the unknown-ID slot populated and `Configure(news)`
succeeding, `Create(urn, news)` returns the freshly generated ID (which the
code asserts distinct from the unknown-ID sentinel), an empty property map
and `StatusOK`, and afterwards `GetProvider(Reference(urn, id))` returns
the very handle that was staged under the unknown-ID slot. -/
theorem c7_create (st : Store) (urn : String) (news : PropertyMap) (p : Handle)
    (freshId : String) (hu : validateURN urn = .ok ())
    (hstaged : Registry.GetProvider st ⟨urn, UnknownID⟩ = some p)
    (hfresh : freshId ≠ UnknownID) :
    Registry.Create false st urn news none freshId =
      some { id := freshId, props := some [], status := .statusOK, err := none,
             store := Registry.setProvider st ⟨urn, freshId⟩ p,
             configured := [(p, news)] } ∧
    Registry.GetProvider (Registry.setProvider st ⟨urn, freshId⟩ p) ⟨urn, freshId⟩ =
      some p :=
  ⟨create_staged_eq st urn news p freshId hu hstaged hfresh,
    getProvider_set_self st ⟨urn, freshId⟩ p⟩

/-- Witness for C7 at a concrete staged store. -/
theorem c7_witness :
    Registry.Create false
        [((⟨"urn:pulumi:st::proj::pulumi:providers:aws::p0", UnknownID⟩ : Reference), 7)]
        "urn:pulumi:st::proj::pulumi:providers:aws::p0" [("k", .string "v")] none "abc-123" =
      some { id := "abc-123", props := some [], status := .statusOK, err := none,
             store := Registry.setProvider
               [((⟨"urn:pulumi:st::proj::pulumi:providers:aws::p0", UnknownID⟩ : Reference), 7)]
               ⟨"urn:pulumi:st::proj::pulumi:providers:aws::p0", "abc-123"⟩ 7,
             configured := [(7, [("k", .string "v")])] } ∧
    Registry.GetProvider
        (Registry.setProvider
          [((⟨"urn:pulumi:st::proj::pulumi:providers:aws::p0", UnknownID⟩ : Reference), 7)]
          ⟨"urn:pulumi:st::proj::pulumi:providers:aws::p0", "abc-123"⟩ 7)
        ⟨"urn:pulumi:st::proj::pulumi:providers:aws::p0", "abc-123"⟩ = some 7 :=
  c7_create [((⟨"urn:pulumi:st::proj::pulumi:providers:aws::p0", UnknownID⟩ : Reference), 7)]
    "urn:pulumi:st::proj::pulumi:providers:aws::p0" [("k", .string "v")] 7 "abc-123"
    (by decide) (by decide) (by decide)

/-! ### Claim C2 -/

/-- Counterexample to C2 as stated: after a `Diff` reporting replacement,
the plugin staged under the unknown-ID slot has been closed via the host,
yet the store is untouched — the unknown-ID slot still resolves to the
closed handle. -/
theorem c2_counterexample :
    (Registry.Diff false
        [((⟨"urn:pulumi:st::proj::pulumi:providers:aws::p0", UnknownID⟩ : Reference), 7)]
        "urn:pulumi:st::proj::pulumi:providers:aws::p0" "cid" [] []
        ({ changes := .diffSome, replaceKeys := ["region"] }, none)).map
      (fun o => (o.closed,
        Registry.GetProvider o.store
          ⟨"urn:pulumi:st::proj::pulumi:providers:aws::p0", UnknownID⟩)) =
      some ([7], some 7) := by
  decide

/-- Claim C2 (amended): when `Diff` returns a diff with nonempty replace
keys, the plugin stored under `Reference(urn, UnknownID)` is closed via the
host and no new concrete-ID slot is populated; the store itself is left
unchanged, so the unknown-ID slot still holds the (closed) handle until the
replacement's `Check` overwrites it. -/
theorem c2_diff_replace (isPreview : Bool) (st : Store) (urn id : String)
    (olds news : PropertyMap) (p : Handle) (diff : Registry.DiffResult)
    (hu : validateURN urn = .ok ()) (hid : id ≠ "")
    (hstaged : Registry.GetProvider st ⟨urn, UnknownID⟩ = some p)
    (hrep : diff.replaceKeys ≠ []) :
    Registry.Diff isPreview st urn id olds news (diff, none) =
      some { result := diff, err := none, store := st, closed := [p] } ∧
    Registry.GetProvider st ⟨urn, UnknownID⟩ = some p :=
  ⟨diff_replace_eq isPreview st urn id olds news p diff hu hid hstaged hrep, hstaged⟩

/-- Witness for C2 (amended) at a concrete staged store. -/
theorem c2_witness :
    Registry.Diff true
        [((⟨"urn:pulumi:st::proj::pulumi:providers:aws::p0", UnknownID⟩ : Reference), 9)]
        "urn:pulumi:st::proj::pulumi:providers:aws::p0" "cid" [] []
        ({ changes := .diffSome, replaceKeys := ["region", "zone"] }, none) =
      some { result := { changes := .diffSome, replaceKeys := ["region", "zone"] },
             err := none,
             store := [((⟨"urn:pulumi:st::proj::pulumi:providers:aws::p0", UnknownID⟩ : Reference), 9)],
             closed := [9] } ∧
    Registry.GetProvider
        [((⟨"urn:pulumi:st::proj::pulumi:providers:aws::p0", UnknownID⟩ : Reference), 9)]
        ⟨"urn:pulumi:st::proj::pulumi:providers:aws::p0", UnknownID⟩ = some 9 :=
  c2_diff_replace true
    [((⟨"urn:pulumi:st::proj::pulumi:providers:aws::p0", UnknownID⟩ : Reference), 9)]
    "urn:pulumi:st::proj::pulumi:providers:aws::p0" "cid" [] [] 9
    { changes := .diffSome, replaceKeys := ["region", "zone"] }
    (by decide) (by decide) (by decide) (by decide)

/-! ### Claim C6 -/

/-- The Boolean provider-type test agrees with the three conditions. -/
theorem isProviderType_iff (t : String) :
    IsProviderType t = true ↔
      (typePackage t = "pulumi" ∧ typeModule t = "providers" ∧ typeName t ≠ "") := by
  simp [IsProviderType, and_assoc]

/-- Claim C6: `Configure` on a loaded plugin is gated by preview mode.
In preview, `Check` configures the plugin with the checked inputs before
inserting the unknown-ID slot (on a configure failure nothing is inserted
and the plugin is closed); outside preview `Check` never calls `Configure`,
and across a `Check`-then-`Create` sequence the plugin is configured
exactly once, during `Create`, with the post-Check inputs; `Update`
likewise configures the stored plugin exactly once with the new inputs. -/
theorem c6_configure_gating :
    (∀ (st : Store) (urn : String) (pT : String → String × Option String)
        (olds news inputs : PropertyMap) (p : Handle) (vv : Option String),
      IsProviderType (urnType urn) = true →
      getProviderVersion pT news = .ok vv →
      Registry.Check true st urn pT olds news (.ok p) (inputs, [], none) none =
        some { inputs := some inputs, failures := [], err := none,
               store := Registry.setProvider st ⟨urn, UnknownID⟩ p,
               closed := [], configured := [(p, inputs)] }) ∧
    (∀ (st : Store) (urn : String) (pT : String → String × Option String)
        (olds news inputs : PropertyMap) (p : Handle) (vv : Option String) (e : String),
      IsProviderType (urnType urn) = true →
      getProviderVersion pT news = .ok vv →
      Registry.Check true st urn pT olds news (.ok p) (inputs, [], none) (some e) =
        some { inputs := none, failures := [], err := some e, store := st,
               closed := [p], configured := [(p, inputs)] }) ∧
    (∀ (st : Store) (urn : String) (pT : String → String × Option String)
        (olds news : PropertyMap) (load : Except String Handle)
        (ccr : PropertyMap × List CheckFailure × Option String)
        (cfgErr : Option String) (out : Registry.CheckOut),
      Registry.Check false st urn pT olds news load ccr cfgErr = some out →
      out.configured = []) ∧
    (∀ (st : Store) (urn : String) (pT : String → String × Option String)
        (olds news inputs newsC : PropertyMap) (p : Handle) (vv : Option String)
        (freshId : String),
      IsProviderType (urnType urn) = true →
      getProviderVersion pT news = .ok vv →
      freshId ≠ UnknownID →
      ∃ out1 out2,
        Registry.Check false st urn pT olds news (.ok p) (inputs, [], none) none =
          some out1 ∧
        Registry.Create false out1.store urn newsC none freshId = some out2 ∧
        out1.configured ++ out2.configured = [(p, newsC)]) ∧
    (∀ (st : Store) (urn id : String) (olds news : PropertyMap) (p : Handle)
        (cfgErr : Option String),
      validateURN urn = .ok () →
      Registry.GetProvider st ⟨urn, id⟩ = some p →
      (Registry.Update st urn id olds news cfgErr).map (fun o => o.configured) =
        some [(p, news)]) := by
  refine ⟨?_, ?_, ?_, ?_, ?_⟩
  · intro st urn pT olds news inputs p vv hp hv
    simp [Registry.Check, hp, hv]
  · intro st urn pT olds news inputs p vv e hp hv
    simp [Registry.Check, hp, hv]
  · intro st urn pT olds news load ccr cfgErr out hout
    obtain ⟨inputs, failures, cerr⟩ := ccr
    by_cases hp : IsProviderType (urnType urn) = true
    · cases hgv : getProviderVersion pT news with
      | error e =>
        simp only [Registry.Check, if_pos hp, hgv, Option.some.injEq] at hout
        subst hout; rfl
      | ok vv =>
        cases load with
        | error e =>
          simp only [Registry.Check, if_pos hp, hgv, Option.some.injEq] at hout
          subst hout; rfl
        | ok p =>
          by_cases hcc : failures.length ≠ 0 ∨ cerr ≠ none
          · simp only [Registry.Check, if_pos hp, hgv, if_pos hcc,
              Option.some.injEq] at hout
            subst hout; rfl
          · simp only [Registry.Check, if_pos hp, hgv, if_neg hcc, Bool.false_eq_true,
              if_false, Option.some.injEq] at hout
            subst hout; rfl
    · simp only [Registry.Check, if_neg hp] at hout
      exact absurd hout (by simp)
  · intro st urn pT olds news inputs newsC p vv freshId hp hv hfresh
    have hu : validateURN urn = .ok () :=
      (validateURN_ok_iff urn).2 ((isProviderType_iff _).1 hp)
    refine ⟨{ inputs := some inputs, failures := [], err := none,
              store := Registry.setProvider st ⟨urn, UnknownID⟩ p,
              closed := [], configured := [] },
            { id := freshId, props := some [], status := .statusOK, err := none,
              store := Registry.setProvider
                (Registry.setProvider st ⟨urn, UnknownID⟩ p) ⟨urn, freshId⟩ p,
              configured := [(p, newsC)] }, ?_, ?_, rfl⟩
    · simp [Registry.Check, hp, hv]
    · exact create_staged_eq (Registry.setProvider st ⟨urn, UnknownID⟩ p) urn newsC p freshId hu
        (getProvider_set_self st ⟨urn, UnknownID⟩ p) hfresh
  · intro st urn id olds news p cfgErr hu hsome
    cases cfgErr with
    | none => simp [Registry.Update, newReference_ok urn id hu, hsome]
    | some e => simp [Registry.Update, newReference_ok urn id hu, hsome]

/-- Witness for C6: all five conjuncts at concrete inputs. -/
theorem c6_witness :
    (Registry.Check true [] "urn:pulumi:st::proj::pulumi:providers:aws::p0"
        (fun s => (s, none)) [] [] (.ok 3) ([("x", .string "1")], [], none) none =
      some { inputs := some [("x", .string "1")], failures := [], err := none,
             store := Registry.setProvider []
               ⟨"urn:pulumi:st::proj::pulumi:providers:aws::p0", UnknownID⟩ 3,
             closed := [], configured := [(3, [("x", .string "1")])] }) ∧
    (Registry.Check true [] "urn:pulumi:st::proj::pulumi:providers:aws::p0"
        (fun s => (s, none)) [] [] (.ok 3) ([("x", .string "1")], [], none) (some "boom") =
      some { inputs := none, failures := [], err := some "boom", store := [],
             closed := [3], configured := [(3, [("x", .string "1")])] }) ∧
    (({ inputs := some [("x", .string "1")], failures := [], err := none,
        store := Registry.setProvider []
          ⟨"urn:pulumi:st::proj::pulumi:providers:aws::p0", UnknownID⟩ 3,
        closed := [], configured := [] } : Registry.CheckOut).configured = []) ∧
    (∃ out1 out2,
      Registry.Check false [] "urn:pulumi:st::proj::pulumi:providers:aws::p0"
          (fun s => (s, none)) [] [] (.ok 3) ([("x", .string "1")], [], none) none =
        some out1 ∧
      Registry.Create false out1.store "urn:pulumi:st::proj::pulumi:providers:aws::p0"
          [("y", .string "2")] none "abc-123" = some out2 ∧
      out1.configured ++ out2.configured = [(3, [("y", .string "2")])]) ∧
    ((Registry.Update
        [((⟨"urn:pulumi:st::proj::pulumi:providers:aws::p0", "cid"⟩ : Reference), 4)]
        "urn:pulumi:st::proj::pulumi:providers:aws::p0" "cid" [] [("k", .string "v")]
        none).map (fun o => o.configured) = some [(4, [("k", .string "v")])]) :=
  ⟨c6_configure_gating.1 [] "urn:pulumi:st::proj::pulumi:providers:aws::p0"
      (fun s => (s, none)) [] [] [("x", .string "1")] 3 none (by decide) (by decide),
    c6_configure_gating.2.1 [] "urn:pulumi:st::proj::pulumi:providers:aws::p0"
      (fun s => (s, none)) [] [] [("x", .string "1")] 3 none "boom" (by decide) (by decide),
    c6_configure_gating.2.2.1 [] "urn:pulumi:st::proj::pulumi:providers:aws::p0"
      (fun s => (s, none)) [] [] (.ok 3) ([("x", .string "1")], [], none) none
      { inputs := some [("x", .string "1")], failures := [], err := none,
        store := Registry.setProvider []
          ⟨"urn:pulumi:st::proj::pulumi:providers:aws::p0", UnknownID⟩ 3,
        closed := [], configured := [] } (by decide),
    c6_configure_gating.2.2.2.1 [] "urn:pulumi:st::proj::pulumi:providers:aws::p0"
      (fun s => (s, none)) [] [] [("x", .string "1")] [("y", .string "2")] 3 none
      "abc-123" (by decide) (by decide) (by decide),
    c6_configure_gating.2.2.2.2
      [((⟨"urn:pulumi:st::proj::pulumi:providers:aws::p0", "cid"⟩ : Reference), 4)]
      "urn:pulumi:st::proj::pulumi:providers:aws::p0" "cid" [] [("k", .string "v")] 4
      none (by decide) (by decide)⟩

/-! ### Claim C1 -/

/-- Claim C1 (amended): on each of the listed control paths — `Check` with
`CheckConfig` failure, `Check` with `Configure` failure in preview, `Diff`
reporting replacement, `Delete` of a stored reference, and shim
construction — the plugin handle involved is closed via the host exactly
once by that operation.  (The further universal statement of the original
claim — that no sequence of registry operations closes a handle twice or
never — fails; see the counterexample.) -/
theorem c1_close_once_per_path :
    (∀ (isPreview : Bool) (st : Store) (urn : String)
        (pT : String → String × Option String) (olds news inputs : PropertyMap)
        (p : Handle) (failures : List CheckFailure) (cerr : Option String)
        (vv : Option String) (cfgErr : Option String),
      IsProviderType (urnType urn) = true →
      getProviderVersion pT news = .ok vv →
      (failures ≠ [] ∨ cerr ≠ none) →
      (Registry.Check isPreview st urn pT olds news (.ok p) (inputs, failures, cerr)
          cfgErr).map (fun o => o.closed) = some [p]) ∧
    (∀ (st : Store) (urn : String) (pT : String → String × Option String)
        (olds news inputs : PropertyMap) (p : Handle) (vv : Option String) (e : String),
      IsProviderType (urnType urn) = true →
      getProviderVersion pT news = .ok vv →
      (Registry.Check true st urn pT olds news (.ok p) (inputs, [], none)
          (some e)).map (fun o => o.closed) = some [p]) ∧
    (∀ (isPreview : Bool) (st : Store) (urn id : String) (olds news : PropertyMap)
        (p : Handle) (diff : Registry.DiffResult),
      validateURN urn = .ok () → id ≠ "" →
      Registry.GetProvider st ⟨urn, UnknownID⟩ = some p →
      diff.replaceKeys ≠ [] →
      (Registry.Diff isPreview st urn id olds news (diff, none)).map
        (fun o => o.closed) = some [p]) ∧
    (∀ (st : Store) (urn id : String) (props : PropertyMap)
        (closeErr : Option String) (p : Handle),
      validateURN urn = .ok () →
      Registry.GetProvider st ⟨urn, id⟩ = some p →
      (Registry.Delete st urn id props closeErr).map (fun o => o.closed) = some [p]) ∧
    (∀ (pkg : String) (p : Handle) (infoResult : Except String PluginInfo),
      (createShim pkg (.ok p) infoResult).closed = [p]) := by
  refine ⟨?_, ?_, ?_, ?_, ?_⟩
  · intro isPreview st urn pT olds news inputs p failures cerr vv cfgErr hp hv hfail
    rcases hfail with h | h
    · cases failures with
      | nil => exact absurd rfl h
      | cons f fs => simp [Registry.Check, hp, hv]
    · cases cerr with
      | none => exact absurd rfl h
      | some e => simp [Registry.Check, hp, hv]
  · intro st urn pT olds news inputs p vv e hp hv
    simp [Registry.Check, hp, hv]
  · intro isPreview st urn id olds news p diff hu hid hstaged hrep
    rw [diff_replace_eq isPreview st urn id olds news p diff hu hid hstaged hrep]
    rfl
  · intro st urn id props closeErr p hu hsome
    rw [delete_stored_eq st urn id props closeErr p hu hsome]
    rfl
  · intro pkg p infoResult
    cases infoResult <;> rfl

/-- Witness for C1 (amended): each of the five paths at concrete inputs. -/
theorem c1_witness :
    ((Registry.Check false [] "urn:pulumi:st::proj::pulumi:providers:aws::p0"
        (fun s => (s, none)) [] [] (.ok 5)
        ([], [⟨"cfg", "bad"⟩], none) none).map (fun o => o.closed) = some [5]) ∧
    ((Registry.Check true [] "urn:pulumi:st::proj::pulumi:providers:aws::p0"
        (fun s => (s, none)) [] [] (.ok 5) ([], [], none)
        (some "boom")).map (fun o => o.closed) = some [5]) ∧
    ((Registry.Diff false
        [((⟨"urn:pulumi:st::proj::pulumi:providers:aws::p0", UnknownID⟩ : Reference), 5)]
        "urn:pulumi:st::proj::pulumi:providers:aws::p0" "cid" [] []
        ({ changes := .diffSome, replaceKeys := ["region"] }, none)).map
      (fun o => o.closed) = some [5]) ∧
    ((Registry.Delete
        [((⟨"urn:pulumi:st::proj::pulumi:providers:aws::p0", "cid"⟩ : Reference), 5)]
        "urn:pulumi:st::proj::pulumi:providers:aws::p0" "cid" [] none).map
      (fun o => o.closed) = some [5]) ∧
    ((createShim "aws" (.ok 5) (.ok "info")).closed = [5]) :=
  ⟨c1_close_once_per_path.1 false [] "urn:pulumi:st::proj::pulumi:providers:aws::p0"
      (fun s => (s, none)) [] [] [] 5 [⟨"cfg", "bad"⟩] none none none
      (by decide) (by decide) (by decide),
    c1_close_once_per_path.2.1 [] "urn:pulumi:st::proj::pulumi:providers:aws::p0"
      (fun s => (s, none)) [] [] [] 5 none "boom" (by decide) (by decide),
    c1_close_once_per_path.2.2.1 false
      [((⟨"urn:pulumi:st::proj::pulumi:providers:aws::p0", UnknownID⟩ : Reference), 5)]
      "urn:pulumi:st::proj::pulumi:providers:aws::p0" "cid" [] [] 5
      { changes := .diffSome, replaceKeys := ["region"] }
      (by decide) (by decide) (by decide) (by decide),
    c1_close_once_per_path.2.2.2.1
      [((⟨"urn:pulumi:st::proj::pulumi:providers:aws::p0", "cid"⟩ : Reference), 5)]
      "urn:pulumi:st::proj::pulumi:providers:aws::p0" "cid" [] none 5
      (by decide) (by decide),
    c1_close_once_per_path.2.2.2.2 "aws" 5 (.ok "info")⟩

/-- The `CloseProvider` calls made along the trace
`Check (success, no preview)`, then `Diff` reporting replacement, then
`Delete` of the still-populated unknown-ID slot, all for one provider
handle (7) acquired by the single `host.Provider` call of the `Check`. -/
def closeTraceCheckDiffDelete : List Handle :=
  match Registry.Check false [] "urn:pulumi:st::proj::pulumi:providers:aws::p0"
      (fun s => (s, none)) [] [] (.ok 7) ([], [], none) none with
  | none => []
  | some o1 =>
    match Registry.Diff false o1.store "urn:pulumi:st::proj::pulumi:providers:aws::p0"
        "cid" [] [] ({ changes := .diffSome, replaceKeys := ["region"] }, none) with
    | none => o1.closed
    | some o2 =>
      match Registry.Delete o2.store "urn:pulumi:st::proj::pulumi:providers:aws::p0"
          UnknownID [] none with
      | none => o1.closed ++ o2.closed
      | some o3 => o1.closed ++ o2.closed ++ o3.closed

/-- Counterexample to C1 as stated: the sequence `Check` (success, outside
preview), `Diff` reporting replacement, `Delete` of the unknown-ID slot —
which `Diff` left populated — closes the single acquired handle 7 twice. -/
theorem c1_counterexample : closeTraceCheckDiffDelete.count 7 = 2 := by
  decide

end PulumiSpec
